import Mathlib

/-!
Shallow embedding of the eduauth authentication/authorization core
(src/auth.py, src/jwt_handler.py, src/routes.py, src/verify_email.py,
src/reset_password.py, src/models.py, src/db_models.py, src/config.py).

Modelling conventions:
  * instants (`datetime`) are naturals counting seconds; `timedelta(minutes=m)`
    is `m * 60`; MongoDB's `$gt` comparison on expiry instants is strict `<`;
  * a MongoDB collection is a `List UserModel`; `find_one` is `List.find?`
    (first match) and `update_one` updates the first matching document;
  * `ObjectId` values are opaque identifiers, modelled as `Nat`;
  * Python exceptions escaping a handler are `Except.error`; an uncaught
    non-HTTP exception is recorded as `PyError.unhandled` (FastAPI would
    surface it as a 500).
-/

deriving instance DecidableEq for Except

namespace EduAuth

/-- Roles from models.py `UserRole(str, Enum)`. -/
inductive UserRole where
  | student
  | teacher
  | admin
deriving DecidableEq, Repr

/-- Account statuses from models.py `UserStatus(str, Enum)`. -/
inductive UserStatus where
  | active
  | inactive
  | pending_verification
deriving DecidableEq, Repr

/-- String value of a role (`role.value` on the Python enum). -/
def UserRole.value : UserRole → String
  | .student => "student"
  | .teacher => "teacher"
  | .admin => "admin"

/-- Construction `UserRole(role)` on a raw string: `some` on the three
enum values, `none` models the `ValueError` raised otherwise. -/
def UserRole.ofValue (s : String) : Option UserRole :=
  if s = "student" then some .student
  else if s = "teacher" then some .teacher
  else if s = "admin" then some .admin
  else none

namespace settings

/-- Default JWT secret from config.py `Settings.JWT_SECRET_KEY`. -/
def JWT_SECRET_KEY : String := "your_super_secret_jwt_key_please_change_this_in_production"

/-- config.py `ACCESS_TOKEN_EXPIRE_MINUTES` (minutes). -/
def ACCESS_TOKEN_EXPIRE_MINUTES : Nat := 30

/-- config.py `PASSWORD_RESET_TOKEN_EXPIRE_MINUTES` (minutes). -/
def PASSWORD_RESET_TOKEN_EXPIRE_MINUTES : Nat := 60

/-- config.py `EMAIL_VERIFICATION_TOKEN_EXPIRE_MINUTES` (minutes). -/
def EMAIL_VERIFICATION_TOKEN_EXPIRE_MINUTES : Nat := 1440

end settings

/-- FastAPI `HTTPException(status_code, detail, headers)`; the only header
the source ever sets is `WWW-Authenticate: Bearer`, recorded as a flag. -/
structure HTTPException where
  status_code : Nat
  detail : String
  wwwAuthenticate : Bool
deriving DecidableEq, Repr

/-- Outcome of running a Python handler: an `HTTPException` raised on
purpose, or an uncaught exception (FastAPI turns it into a 500). -/
inductive PyError where
  | http (e : HTTPException)
  | unhandled (msg : String)
deriving DecidableEq, Repr

/-- User document, db_models.py `UserModel`. -/
structure UserModel where
  id : Nat
  email : String
  hashed_password : String
  full_name : String
  role : UserRole
  status : UserStatus
  is_verified : Bool
  verification_token : Option String
  verification_token_expires_at : Option Nat
  reset_password_token : Option String
  reset_password_token_expires_at : Option Nat
  created_at : Nat
  updated_at : Nat
deriving DecidableEq, Repr

/-- MongoDB `update_one`: apply `f` to the first element satisfying `p`,
leave everything else untouched. -/
def updateFirst (p : UserModel → Bool) (f : UserModel → UserModel) :
    List UserModel → List UserModel
  | [] => []
  | x :: xs => if p x then f x :: xs else x :: updateFirst p f xs

/-! ### Password hashing (auth.py, via passlib CryptContext with bcrypt)

The bcrypt scheme is modelled just faithfully enough for the claims:
a digest produced by `hash_password` carries a scheme marker, the salt and
the verification payload; `CryptContext.verify` first identifies the hash
by its marker and raises `UnknownHashError` when no scheme matches (this is
passlib's behaviour on a malformed digest — it does not return False). -/

/-- Scheme marker of a modelled bcrypt digest. -/
def BCRYPT_MARKER : String := "$2b$12$"

/-- Model of passlib `CryptContext(schemes=[bcrypt]).identify`: does the
digest carry the bcrypt scheme marker? -/
def pwd_context_identify (digest : String) : Bool :=
  BCRYPT_MARKER.data.isPrefixOf digest.data

/-- Model of `pwd_context.hash` (auth.py `hash_password`): a salted bcrypt
digest, salt chosen by the library. -/
def hash_password (salt : String) (password : String) : String :=
  BCRYPT_MARKER ++ salt ++ "$" ++ password

/-- Model of `pwd_context.verify`: raises (`.error`) on an unidentified
digest, otherwise checks the digest against the plaintext. -/
def pwd_context_verify (plain : String) (digest : String) : Except String Bool :=
  if pwd_context_identify digest then
    .ok (("$" ++ plain).data.isSuffixOf digest.data)
  else
    .error "UnknownHashError: hash could not be identified"

/-- auth.py `verify_password`: a bare delegate to `pwd_context.verify`,
with no handling of the error it can raise. -/
def verify_password (plain_password : String) (hashed_password : String) :
    Except String Bool :=
  pwd_context_verify plain_password hashed_password

/-- reset_password.py `hash_password_placeholder`: returns the literal
string `hashed_` followed by the plaintext (not a bcrypt digest). -/
def hash_password_placeholder (password : String) : String :=
  "hashed_" ++ password

/-! ### JWT codec (jwt_handler.py, via PyJWT)

A JWT string is opaque; what matters to the repository is what
`jwt.encode`/`jwt.decode` observe of it: the signed claim set, the `exp`
instant, the signing secret, or the fact that the string is not a valid
token at all. -/

/-- Abstract JWT: either a well-formed token signed with `secret`, carrying
a claim set and an `exp` instant, or a string that does not parse. -/
inductive Jwt where
  | signed (claims : List (String × String)) (exp : Nat) (secret : String)
  | malformed (raw : String)
deriving DecidableEq, Repr

/-- PyJWT error classes the source distinguishes. -/
inductive JwtDecodeError where
  | expiredSignature
  | invalidToken
deriving DecidableEq, Repr

/-- Python `payload.get(key)` on the decoded claim dict. -/
def payloadGet (payload : List (String × String)) (key : String) : Option String :=
  (payload.find? (fun kv => decide (kv.1 = key))).map (·.2)

/-- Model of `jwt.decode(token, key, algorithms, verify_exp=True)`:
signature is checked first (a token signed with another secret raises
`InvalidSignatureError`, a non-token raises `DecodeError`, both subclasses
of `InvalidTokenError`), then `exp` is enforced. -/
def jwt_decode (token : Jwt) (key : String) (now : Nat) :
    Except JwtDecodeError (List (String × String)) :=
  match token with
  | .malformed _ => .error .invalidToken
  | .signed claims exp secret =>
    if secret ≠ key then .error .invalidToken
    else if exp ≤ now then .error .expiredSignature
    else .ok claims

/-- models.py `TokenData` as produced by `decode_token` (fields filled in
from the payload; `id` keeps its `Optional` type from the source). -/
structure TokenData where
  email : String
  role : UserRole
  id : Option String
deriving DecidableEq, Repr

/-- jwt_handler.py 401 `credentials_exception`. -/
def credentials_exception : HTTPException :=
  ⟨401, "Could not validate credentials", true⟩

/-- jwt_handler.py 401 exception for an expired token. -/
def expired_exception : HTTPException :=
  ⟨401, "Token has expired", true⟩

/-- jwt_handler.py `create_access_token`: copies the payload, adds `exp`
(`now` plus the given delta in seconds, or the configured default), and
signs with the configured secret. -/
def create_access_token (data : List (String × String))
    (expires_delta : Option Nat) (now : Nat) : Jwt :=
  let expire :=
    match expires_delta with
    | some d => now + d
    | none => now + settings.ACCESS_TOKEN_EXPIRE_MINUTES * 60
  Jwt.signed data expire settings.JWT_SECRET_KEY

/-- jwt_handler.py `decode_token`: decodes with the configured secret;
`ExpiredSignatureError` becomes the dedicated 401, any other
`InvalidTokenError` the generic 401; a payload missing `email`, `role`
or `id`, or carrying a role outside the enum (the `UserRole(role)`
`ValueError`, swallowed by the blanket `except Exception`), also ends in
the generic 401. -/
def decode_token (token : Jwt) (now : Nat) : Except HTTPException TokenData :=
  match jwt_decode token settings.JWT_SECRET_KEY now with
  | .error .expiredSignature => .error expired_exception
  | .error .invalidToken => .error credentials_exception
  | .ok payload =>
    match payloadGet payload "email", payloadGet payload "role",
        payloadGet payload "id" with
    | some email, some role, some user_id =>
      match UserRole.ofValue role with
      | some r => .ok ⟨email, r, some user_id⟩
      | none => .error credentials_exception
    | _, _, _ => .error credentials_exception

/-! ### Token consumption flows (verify_email.py, reset_password.py) -/

/-- MongoDB filter `{field: {"$gt": now}}` on an optional instant: a null
field never satisfies `$gt`. -/
def expiryGt (field : Option Nat) (now : Nat) : Bool :=
  match field with
  | some e => decide (now < e)
  | none => false

/-- verify_email.py `verify_user_email`: find one account whose stored
verification token equals the input and whose expiry is strictly in the
future; on a match, set verified/active and clear the token pair, then
re-fetch the document. Returns the optional updated user and the store. -/
def verify_user_email (verification_token : String)
    (db : List UserModel) (now : Nat) : Option UserModel × List UserModel :=
  match db.find? (fun u =>
      decide (u.verification_token = some verification_token) &&
      expiryGt u.verification_token_expires_at now) with
  | none => (none, db)
  | some user =>
    let db2 := updateFirst (fun u => decide (u.id = user.id))
      (fun u => { u with
        is_verified := true
        status := .active
        verification_token := none
        verification_token_expires_at := none
        updated_at := now }) db
    (db2.find? (fun u => decide (u.id = user.id)), db2)

/-- reset_password.py `reset_user_password`: find one account whose stored
reset token equals the input and is unexpired; hash the new password with
`hash_password_placeholder`, store it, clear the token pair, re-fetch. -/
def reset_user_password (reset_token : String) (new_password : String)
    (db : List UserModel) (now : Nat) : Option UserModel × List UserModel :=
  match db.find? (fun u =>
      decide (u.reset_password_token = some reset_token) &&
      expiryGt u.reset_password_token_expires_at now) with
  | none => (none, db)
  | some user =>
    let db2 := updateFirst (fun u => decide (u.id = user.id))
      (fun u => { u with
        hashed_password := hash_password_placeholder new_password
        reset_password_token := none
        reset_password_token_expires_at := none
        updated_at := now }) db
    (db2.find? (fun u => decide (u.id = user.id)), db2)

/-- reset_password.py `store_reset_password_token`: fails on every call.
The filter expression
`{"_id": UserModel.Config.json_encoders[ObjectId](user_id)}` evaluates
the name `ObjectId`, which reset_password.py never imports, so a
`NameError` is raised before any store access; the function's blanket
`except Exception` catches it and returns False. (Even granting the
import, `json_encoders[ObjectId]` is `str`, keying `_id` by a string
while documents store ObjectId values, so `modified_count` would still
be 0.) No write is performed and the store is returned unchanged. -/
def store_reset_password_token (_user_id : Nat) (_token : String)
    (db : List UserModel) (_now : Nat) : Bool × List UserModel :=
  (false, db)

/-! ### Endpoints (routes.py) -/

/-- models.py `Token` response: the access token plus `token_type`. -/
structure Token where
  access_token : Jwt
  token_type : String
deriving DecidableEq, Repr

/-- routes.py login 401 for a missing user or a wrong password. -/
def incorrect_credentials_exception : HTTPException :=
  ⟨401, "Incorrect email or password", true⟩

/-- routes.py login 403 for an unverified account. -/
def login_unverified_exception : HTTPException :=
  ⟨403, "Account not verified. Please verify your email.", true⟩

/-- routes.py login 403 for a non-active account. -/
def login_inactive_exception : HTTPException :=
  ⟨403, "Account is inactive. Please contact support.", true⟩

/-- routes.py `login_for_access_token`: look up by email (missing user and
wrong password collapse to one 401), verify the password (an error raised
by passlib escapes the handler), then gate on `is_verified` and on
`status == active` — with no role exemption on either gate — and finally
issue the access token with claims email/role/id. -/
def login_for_access_token (email : String) (password : String)
    (db : List UserModel) (now : Nat) : Except PyError Token :=
  match db.find? (fun u => decide (u.email = email)) with
  | none => .error (.http incorrect_credentials_exception)
  | some user =>
    match verify_password password user.hashed_password with
    | .error e => .error (.unhandled e)
    | .ok false => .error (.http incorrect_credentials_exception)
    | .ok true =>
      if user.is_verified = false then
        .error (.http login_unverified_exception)
      else if user.status ≠ UserStatus.active then
        .error (.http login_inactive_exception)
      else
        .ok ⟨create_access_token
          [("email", user.email), ("role", user.role.value), ("id", toString user.id)]
          none now, "bearer"⟩

/-- Generic acknowledgment returned by routes.py `request_password_reset`
on both the unknown-email path and the success path. -/
def GENERIC_RESET_MESSAGE : String :=
  "If your email is registered, a password reset link has been sent."

/-- routes.py `request_password_reset`: unknown email returns the generic
200 acknowledgment untouched; a known email attempts to store a fresh
reset token and raises a 500 when the write reports no modification
(which, per `store_reset_password_token`, it always does). The freshly
generated random token is passed in as `reset_token`; the background
email task is outside the model. -/
def request_password_reset (email : String) (reset_token : String)
    (db : List UserModel) (now : Nat) :
    Except PyError (String × List UserModel) :=
  match db.find? (fun u => decide (u.email = email)) with
  | none => .ok (GENERIC_RESET_MESSAGE, db)
  | some user =>
    let res := store_reset_password_token user.id reset_token db now
    if res.1 then .ok (GENERIC_RESET_MESSAGE, res.2)
    else .error (.http ⟨500, "Failed to generate password reset token.", false⟩)

/-- routes.py `verify_email_endpoint`: 400 when `verify_user_email`
returns nothing, otherwise the updated user. -/
def verify_email_endpoint (token : String) (db : List UserModel) (now : Nat) :
    Except PyError (UserModel × List UserModel) :=
  match verify_user_email token db now with
  | (none, _) => .error (.http ⟨400, "Invalid or expired verification token.", false⟩)
  | (some u, db2) => .ok (u, db2)

/-! ### Authorization guard chain (auth.py) -/

/-- auth.py 403 `unverified_exception` raised by `get_current_user`. -/
def unverified_exception : HTTPException :=
  ⟨403, "Account not verified. Please verify your email.", false⟩

/-- auth.py `get_current_user`: decode the bearer token (re-raising the
handler's exceptions), refuse a null subject id, fetch the user by id
(absence is the generic 401), then apply the verified gate with the admin
exemption. -/
def get_current_user (token : Jwt) (db : List UserModel) (now : Nat) :
    Except HTTPException UserModel :=
  match decode_token token now with
  | .error e => .error e
  | .ok token_data =>
    match token_data.id with
    | none => .error credentials_exception
    | some user_id =>
      match db.find? (fun u => decide (toString u.id = user_id)) with
      | none => .error credentials_exception
      | some user =>
        if user.is_verified = false ∧ user.role ≠ UserRole.admin then
          .error unverified_exception
        else
          .ok user

/-- Admin account that is active but not yet email-verified; password is
`adminpw`. -/
def demoUnverifiedAdmin : UserModel :=
  { id := 2, email := "ad@x.com", hashed_password := hash_password "s2" "adminpw",
    full_name := "Ad", role := .admin, status := .active, is_verified := false,
    verification_token := none, verification_token_expires_at := none,
    reset_password_token := none, reset_password_token_expires_at := none,
    created_at := 0, updated_at := 0 }

/-- Verified active student holding a pending reset token `rtok` that
expires at instant 100. -/
def demoResetUser : UserModel :=
  { id := 1, email := "a@x.com", hashed_password := hash_password "s1" "oldpw",
    full_name := "A", role := .student, status := .active, is_verified := true,
    verification_token := none, verification_token_expires_at := none,
    reset_password_token := some "rtok", reset_password_token_expires_at := some 100,
    created_at := 0, updated_at := 0 }

/-- Deactivated (status inactive) student holding a pending verification
token `vtok` that expires at instant 100. -/
def demoInactiveUser : UserModel :=
  { id := 3, email := "in@x.com", hashed_password := hash_password "s3" "inpw",
    full_name := "In", role := .student, status := .inactive, is_verified := false,
    verification_token := some "vtok", verification_token_expires_at := some 100,
    reset_password_token := none, reset_password_token_expires_at := none,
    created_at := 0, updated_at := 0 }

/-- State of `demoInactiveUser` after its verification token is consumed
at instant 5. -/
def demoInactiveUserVerified : UserModel :=
  { demoInactiveUser with
    is_verified := true
    status := .active
    verification_token := none
    verification_token_expires_at := none
    updated_at := 5 }

/-- Unverified, inactive teacher holding a pending reset token `rt2`
expiring at instant 100, with every other field populated. -/
def demoUnverifiedResetUser : UserModel :=
  { id := 4, email := "t@x.com", hashed_password := hash_password "s4" "tpw",
    full_name := "T", role := .teacher, status := .inactive, is_verified := false,
    verification_token := some "vt4", verification_token_expires_at := some 50,
    reset_password_token := some "rt2", reset_password_token_expires_at := some 100,
    created_at := 7, updated_at := 8 }

/-! ### Helper lemmas about `updateFirst` -/

/-- Every element of the updated list is an untouched element of the
original list or the image of a matching element. -/
theorem mem_updateFirst {p : UserModel → Bool} {f : UserModel → UserModel} :
    ∀ {l : List UserModel} {v : UserModel}, v ∈ updateFirst p f l →
      v ∈ l ∨ ∃ x, x ∈ l ∧ p x = true ∧ v = f x := by
  intro l
  induction l with
  | nil => intro v hv; simp [updateFirst] at hv
  | cons x xs ih =>
    intro v hv
    by_cases hx : p x
    · simp only [updateFirst, hx, if_true, List.mem_cons] at hv
      rcases hv with hv | hv
      · exact Or.inr ⟨x, List.mem_cons_self x xs, hx, hv⟩
      · exact Or.inl (List.mem_cons_of_mem x hv)
    · simp only [updateFirst, hx, if_false, Bool.false_eq_true, List.mem_cons] at hv
      rcases hv with hv | hv
      · exact Or.inl (by simp [hv])
      · rcases ih hv with h | ⟨y, hy, hpy, hvy⟩
        · exact Or.inl (List.mem_cons_of_mem x h)
        · exact Or.inr ⟨y, List.mem_cons_of_mem x hy, hpy, hvy⟩

/-- An element the predicate rejects survives the update unchanged. -/
theorem mem_updateFirst_of_neg {p : UserModel → Bool} {f : UserModel → UserModel} :
    ∀ {l : List UserModel} {v : UserModel}, v ∈ l → p v = false →
      v ∈ updateFirst p f l := by
  intro l
  induction l with
  | nil => intro v hv; simp at hv
  | cons x xs ih =>
    intro v hv hpv
    by_cases hx : p x
    · simp only [updateFirst, hx, if_true, List.mem_cons]
      rcases List.mem_cons.mp hv with hv | hv
      · exact absurd (hv ▸ hpv) (by simp [hx])
      · exact Or.inr hv
    · simp only [updateFirst, hx, if_false, Bool.false_eq_true, List.mem_cons]
      rcases List.mem_cons.mp hv with hv | hv
      · exact Or.inl hv
      · exact Or.inr (ih hv hpv)

/-- When document ids are unique, an update keyed by the id of a member
`w` leaves the store holding exactly `f w` at `w`'s place: a re-fetch by
that id returns `f w`, provided `f` preserves the id. -/
theorem find?_updateFirst_id (f : UserModel → UserModel) (w : UserModel)
    (hf : ∀ z, (f z).id = z.id) :
    ∀ (l : List UserModel), w ∈ l → (l.map (·.id)).Nodup →
      (updateFirst (fun u => decide (u.id = w.id)) f l).find?
        (fun u => decide (u.id = w.id)) = some (f w) := by
  intro l
  induction l with
  | nil => intro hw; exact absurd hw (List.not_mem_nil w)
  | cons x xs ih =>
    intro hw hnd
    rw [List.map_cons] at hnd
    obtain ⟨hnd1, hnd2⟩ := List.nodup_cons.mp hnd
    by_cases hx : x.id = w.id
    · have hxw : x = w := by
        rcases List.mem_cons.mp hw with h | h
        · exact h.symm
        · exact absurd (hx ▸ List.mem_map_of_mem (·.id) h) hnd1
      simp [updateFirst, hx, hf, hxw]
    · have hwxs : w ∈ xs := by
        rcases List.mem_cons.mp hw with h | h
        · exact absurd (congrArg UserModel.id h.symm) hx
        · exact h
      simp only [updateFirst, hx, decide_False, Bool.false_eq_true, if_false]
      rw [List.find?_cons_of_neg _ (by simp [hx])]
      exact ih hwxs hnd2

/-- With unique ids, every element of the list updated at member `w` is
either `f w` or an original element with a different id. -/
theorem mem_updateFirst_id (f : UserModel → UserModel) (w : UserModel) :
    ∀ (l : List UserModel), w ∈ l → (l.map (·.id)).Nodup →
      ∀ v ∈ updateFirst (fun u => decide (u.id = w.id)) f l,
        v = f w ∨ (v ∈ l ∧ v.id ≠ w.id) := by
  intro l
  induction l with
  | nil => intro hw; exact absurd hw (List.not_mem_nil w)
  | cons x xs ih =>
    intro hw hnd v hv
    rw [List.map_cons] at hnd
    obtain ⟨hnd1, hnd2⟩ := List.nodup_cons.mp hnd
    by_cases hx : x.id = w.id
    · have hxw : x = w := by
        rcases List.mem_cons.mp hw with h | h
        · exact h.symm
        · exact absurd (hx ▸ List.mem_map_of_mem (·.id) h) hnd1
      simp only [updateFirst, hx, decide_True, if_true, List.mem_cons] at hv
      rcases hv with hv | hv
      · exact Or.inl (hxw ▸ hv)
      · refine Or.inr ⟨List.mem_cons_of_mem x hv, ?_⟩
        intro hcontra
        exact hnd1 (hx ▸ hcontra ▸ List.mem_map_of_mem (·.id) hv)
    · have hwxs : w ∈ xs := by
        rcases List.mem_cons.mp hw with h | h
        · exact absurd (congrArg UserModel.id h.symm) hx
        · exact h
      simp only [updateFirst, hx, decide_False, Bool.false_eq_true, if_false,
        List.mem_cons] at hv
      rcases hv with hv | hv
      · exact Or.inr ⟨by simp [hv], hv ▸ hx⟩
      · rcases ih hwxs hnd2 v hv with h | ⟨h1, h2⟩
        · exact Or.inl h
        · exact Or.inr ⟨List.mem_cons_of_mem x h1, h2⟩

/-- Round trip of the role enum through its string value. -/
theorem UserRole.ofValue_value (r : UserRole) : UserRole.ofValue r.value = some r := by
  cases r <;> rfl

/-! ### Claim C1 — admin bypass of the verified-gate at login -/

/-- C1 counterexample: an active but unverified admin presenting the
correct password is rejected by Login with the 403 unverified error — the
claimed admin bypass does not exist on the login flow (routes.py checks
`is_verified` with no role exemption). -/
theorem login_unverified_admin_rejected :
    login_for_access_token "ad@x.com" "adminpw" [demoUnverifiedAdmin] 0 =
      .error (.http login_unverified_exception) := by decide

/-- C1 (amended): Login rejects every account whose password matches but
whose `is_verified` is false with Forbidden(unverified), regardless of
role; the admin exemption from the verified-gate exists only in the
`get_current_user` guard, which accepts an unverified admin presenting a
valid bearer token. -/
theorem login_verified_gate_has_no_admin_bypass :
    (∀ (db : List UserModel) (email password : String) (now : Nat) (user : UserModel),
      db.find? (fun u => decide (u.email = email)) = some user →
      verify_password password user.hashed_password = .ok true →
      user.is_verified = false →
      login_for_access_token email password db now =
        .error (.http login_unverified_exception)) ∧
    (∀ (token : Jwt) (db : List UserModel) (now : Nat) (td : TokenData)
        (uid : String) (user : UserModel),
      decode_token token now = .ok td →
      td.id = some uid →
      db.find? (fun u => decide (toString u.id = uid)) = some user →
      user.is_verified = false →
      user.role = UserRole.admin →
      get_current_user token db now = .ok user) := by
  constructor
  · intro db email password now user hfind hverify hunv
    simp [login_for_access_token, hfind, hverify, hunv]
  · intro token db now td uid user hdec hid hfind hunv hrole
    simp [get_current_user, hdec, hid, hfind, hrole]

/-- C1 witness: both parts of the amended statement at the concrete
unverified-admin account. -/
theorem login_verified_gate_witness :
    login_for_access_token "ad@x.com" "adminpw" [demoUnverifiedAdmin] 0 =
      .error (.http login_unverified_exception) ∧
    get_current_user
      (Jwt.signed [("email", "ad@x.com"), ("role", "admin"), ("id", "2")] 10
        settings.JWT_SECRET_KEY) [demoUnverifiedAdmin] 0 = .ok demoUnverifiedAdmin :=
  ⟨login_verified_gate_has_no_admin_bypass.1 [demoUnverifiedAdmin] "ad@x.com" "adminpw" 0
      demoUnverifiedAdmin (by decide) (by decide) (by decide),
   login_verified_gate_has_no_admin_bypass.2
      (Jwt.signed [("email", "ad@x.com"), ("role", "admin"), ("id", "2")] 10
        settings.JWT_SECRET_KEY) [demoUnverifiedAdmin] 0
      ⟨"ad@x.com", .admin, some "2"⟩ "2" demoUnverifiedAdmin (by decide) (by decide)
      (by decide) (by decide) (by decide)⟩

/-! ### Claim C2 — Confirm Password Reset and the stored digest -/

/-- C2: evaluation of the code at the failing input — confirming a reset
with a matching unexpired token stores the placeholder string
`hashed_newpass123`, not a digest of the bcrypt hashing component; the
bcrypt verifier raises on that stored credential, so a subsequent login
with the new password dies with an unhandled exception instead of
authenticating. -/
theorem reset_password_placeholder_defeats_login :
    (reset_user_password "rtok" "newpass123" [demoResetUser] 0).1.map (·.hashed_password) =
      some "hashed_newpass123" ∧
    verify_password "newpass123" "hashed_newpass123" =
      .error "UnknownHashError: hash could not be identified" ∧
    login_for_access_token "a@x.com" "newpass123"
      (reset_user_password "rtok" "newpass123" [demoResetUser] 0).2 0 =
      .error (.unhandled "UnknownHashError: hash could not be identified") :=
  ⟨by decide, by decide, by decide⟩

/-! ### Claim C4 — decode failure taxonomy -/

/-- C4 counterexample: a malformed token and a validly signed, unexpired
token missing a required claim (`id` absent) produce the identical
externally observable outcome, the 401 credentials exception — the three
failure modes do not map to three distinct outcomes. -/
theorem decode_token_malformed_equals_missing_claim :
    decode_token (Jwt.malformed "x") 0 = .error credentials_exception ∧
    decode_token (Jwt.signed [("email", "a@x.com"), ("role", "student")] 10
      settings.JWT_SECRET_KEY) 0 = .error credentials_exception :=
  ⟨by decide, by decide⟩

/-- C4 (amended): `decode_token` maps Expired to its own 401 (detail
`Token has expired`), while Malformed/InvalidSignature and
MissingRequiredClaim both collapse to the single generic 401 credentials
exception — two distinct outcomes across the three failure modes, with
Expired distinct from the other two. -/
theorem decode_token_failure_taxonomy :
    (∀ (raw : String) (now : Nat),
      decode_token (Jwt.malformed raw) now = .error credentials_exception) ∧
    (∀ (claims : List (String × String)) (e : Nat) (secret : String) (now : Nat),
      secret ≠ settings.JWT_SECRET_KEY →
      decode_token (Jwt.signed claims e secret) now = .error credentials_exception) ∧
    (∀ (claims : List (String × String)) (e now : Nat),
      e ≤ now →
      decode_token (Jwt.signed claims e settings.JWT_SECRET_KEY) now =
        .error expired_exception) ∧
    (∀ (claims : List (String × String)) (e now : Nat),
      now < e →
      (payloadGet claims "email" = none ∨ payloadGet claims "role" = none ∨
        payloadGet claims "id" = none) →
      decode_token (Jwt.signed claims e settings.JWT_SECRET_KEY) now =
        .error credentials_exception) ∧
    expired_exception ≠ credentials_exception := by
  refine ⟨?_, ?_, ?_, ?_, by decide⟩
  · intro raw now; rfl
  · intro claims e secret now hs
    simp [decode_token, jwt_decode, hs]
  · intro claims e now he
    simp [decode_token, jwt_decode, he]
  · intro claims e now hlt hmiss
    have hexp : ¬ (e ≤ now) := Nat.not_le.mpr hlt
    rcases hmiss with h | h | h
    · simp [decode_token, jwt_decode, hexp, h]
    · cases hemail : payloadGet claims "email" <;>
        simp [decode_token, jwt_decode, hexp, hemail, h]
    · cases hemail : payloadGet claims "email" <;>
        cases hrole : payloadGet claims "role" <;>
          simp [decode_token, jwt_decode, hexp, hemail, hrole, h]

/-- C4 witness: the four failure shapes of the amended statement at
concrete tokens. -/
theorem decode_token_failure_taxonomy_witness :
    decode_token (Jwt.malformed "zz") 3 = .error credentials_exception ∧
    decode_token (Jwt.signed [("email", "a"), ("role", "student"), ("id", "1")] 9
      "othersecret") 3 = .error credentials_exception ∧
    decode_token (Jwt.signed [("email", "a"), ("role", "student"), ("id", "1")] 2
      settings.JWT_SECRET_KEY) 3 = .error expired_exception ∧
    decode_token (Jwt.signed [("email", "a"), ("id", "1")] 9
      settings.JWT_SECRET_KEY) 3 = .error credentials_exception :=
  ⟨decode_token_failure_taxonomy.1 "zz" 3,
   decode_token_failure_taxonomy.2.1 [("email", "a"), ("role", "student"), ("id", "1")]
      9 "othersecret" 3 (by decide),
   decode_token_failure_taxonomy.2.2.1 [("email", "a"), ("role", "student"), ("id", "1")]
      2 3 (by decide),
   decode_token_failure_taxonomy.2.2.2.1 [("email", "a"), ("id", "1")] 9 3 (by decide)
      (Or.inr (Or.inl (by decide)))⟩

/-! ### Claim C5 — verify on a malformed digest -/

/-- C5 counterexample: `verify_password` on the malformed digest
`hashed_secret` raises passlib UnknownHashError (modelled as `.error`)
instead of returning false — it is not exception-free on arbitrary digest
strings. -/
theorem verify_password_malformed_digest_raises :
    verify_password "secret" "hashed_secret" =
      .error "UnknownHashError: hash could not be identified" := by decide

/-- C5 (amended): `verify_password` returns a boolean only for digests the
bcrypt context identifies; on any unidentified (malformed) digest it
raises UnknownHashError rather than returning false. -/
theorem verify_password_raises_on_unidentified_digest :
    ∀ (plain digest : String),
      (pwd_context_identify digest = false →
        verify_password plain digest =
          .error "UnknownHashError: hash could not be identified") ∧
      (pwd_context_identify digest = true →
        ∃ b, verify_password plain digest = .ok b) := by
  intro p d
  constructor
  · intro h
    simp [verify_password, pwd_context_verify, h]
  · intro h
    refine ⟨("$" ++ p).data.isSuffixOf d.data, ?_⟩
    simp [verify_password, pwd_context_verify, h]

/-- C5 witness: both branches of the amended statement at concrete
digests. -/
theorem verify_password_raises_witness :
    verify_password "pw" "nothash" =
      .error "UnknownHashError: hash could not be identified" ∧
    ∃ b, verify_password "pw" (hash_password "s" "pw") = .ok b :=
  ⟨(verify_password_raises_on_unidentified_digest "pw" "nothash").1 (by decide),
   (verify_password_raises_on_unidentified_digest "pw" (hash_password "s" "pw")).2
      (by decide)⟩

/-! ### Claim C3 — anti-enumeration of Request Password Reset -/

/-- C3: evaluation of the code at the failing input — a registered email
receives the 500 `Failed to generate password reset token.` because the
reset-token write always fails (reset_password.py never imports
`ObjectId`: the `NameError` is swallowed and False returned, and the
string-keyed `_id` filter would match no ObjectId-keyed document anyway),
while an unregistered email receives the generic 200 acknowledgment; the
two runs are distinguishable by status and payload, defeating the
anti-enumeration behaviour the claim states and the code's own comment
documents as intended. -/
theorem request_password_reset_distinguishes_registered :
    request_password_reset "a@x.com" "fresh" [demoResetUser] 0 =
      .error (.http ⟨500, "Failed to generate password reset token.", false⟩) ∧
    request_password_reset "ghost@x.com" "fresh" [demoResetUser] 0 =
      .ok (GENERIC_RESET_MESSAGE, [demoResetUser]) :=
  ⟨by decide, by decide⟩

/-! ### Claim C7 — issue/decode round trip, expiry, wrong secret -/

/-- C7: a token issued for claims {id, email, role} with a positive TTL
decodes to exactly those claims at any instant before the TTL elapses;
at or after expiry it yields the Expired outcome; and a token signed with
any secret other than the server's decodes to an error, never to claims. -/
theorem jwt_round_trip_expiry_and_secret :
    (∀ (email uid : String) (r : UserRole) (ttl now t : Nat),
      t < now + ttl →
      decode_token (create_access_token
        [("email", email), ("role", r.value), ("id", uid)] (some ttl) now) t =
        .ok ⟨email, r, some uid⟩) ∧
    (∀ (email uid : String) (r : UserRole) (ttl now t : Nat),
      now + ttl ≤ t →
      decode_token (create_access_token
        [("email", email), ("role", r.value), ("id", uid)] (some ttl) now) t =
        .error expired_exception) ∧
    (∀ (claims : List (String × String)) (e : Nat) (secret : String) (t : Nat),
      secret ≠ settings.JWT_SECRET_KEY →
      decode_token (Jwt.signed claims e secret) t = .error credentials_exception) := by
  refine ⟨?_, ?_, ?_⟩
  · intro email uid r ttl now t ht
    have hexp : ¬ (now + ttl ≤ t) := Nat.not_le.mpr ht
    simp [create_access_token, decode_token, jwt_decode, hexp, payloadGet,
      UserRole.ofValue_value]
  · intro email uid r ttl now t ht
    simp [create_access_token, decode_token, jwt_decode, ht]
  · intro claims e secret t hs
    simp [decode_token, jwt_decode, hs]

/-- C7 witness: round trip, expiry and wrong-secret outcomes at concrete
claims and instants. -/
theorem jwt_round_trip_witness :
    decode_token (create_access_token
      [("email", "a@x.com"), ("role", UserRole.teacher.value), ("id", "9")]
      (some 60) 100) 140 = .ok ⟨"a@x.com", .teacher, some "9"⟩ ∧
    decode_token (create_access_token
      [("email", "a@x.com"), ("role", UserRole.teacher.value), ("id", "9")]
      (some 60) 100) 160 = .error expired_exception ∧
    decode_token (Jwt.signed [("email", "a@x.com")] 500 "wrongsecret") 140 =
      .error credentials_exception :=
  ⟨jwt_round_trip_expiry_and_secret.1 "a@x.com" "9" .teacher 60 100 140 (by decide),
   jwt_round_trip_expiry_and_secret.2.1 "a@x.com" "9" .teacher 60 100 160 (by decide),
   jwt_round_trip_expiry_and_secret.2.2 [("email", "a@x.com")] 500 "wrongsecret" 140
      (by decide)⟩

/-! ### Claim C8 — fixed evaluation order of the guard chain -/

/-- C9: when an account's stored verification token matches the supplied
token and its expiry is strictly in the future, consuming the token sets
is_verified and status to active with no condition on the prior status —
in particular an inactive account is re-activated, not only one pending
verification. -/
theorem verify_email_reactivates_any_status :
    ∀ (db : List UserModel) (tk : String) (now : Nat) (u : UserModel),
      (db.map (·.id)).Nodup →
      db.find? (fun x => decide (x.verification_token = some tk) &&
        expiryGt x.verification_token_expires_at now) = some u →
      ∃ u2 db2, verify_user_email tk db now = (some u2, db2) ∧
        u2.is_verified = true ∧ u2.status = UserStatus.active ∧
        u2.id = u.id ∧ u2.email = u.email := by
  intro db tk now u hnd hfind
  have hu : u ∈ db := List.mem_of_find?_eq_some hfind
  have hre := find?_updateFirst_id
    (fun x => { x with
      is_verified := true
      status := .active
      verification_token := none
      verification_token_expires_at := none
      updated_at := now }) u (fun z => rfl) db hu hnd
  refine ⟨{ u with
      is_verified := true
      status := .active
      verification_token := none
      verification_token_expires_at := none
      updated_at := now },
    updateFirst (fun x => decide (x.id = u.id))
      (fun x => { x with
        is_verified := true
        status := .active
        verification_token := none
        verification_token_expires_at := none
        updated_at := now }) db, ?_, rfl, rfl, rfl, rfl⟩
  simp [verify_user_email, hfind, hre]

/-- C9 witness: the inactive account holding the valid token `vtok` comes
out verified and active. -/
theorem verify_email_reactivates_witness :
    ∃ u2 db2, verify_user_email "vtok" [demoInactiveUser] 5 = (some u2, db2) ∧
      u2.is_verified = true ∧ u2.status = UserStatus.active ∧
      u2.id = demoInactiveUser.id ∧ u2.email = demoInactiveUser.email :=
  verify_email_reactivates_any_status [demoInactiveUser] "vtok" 5 demoInactiveUser
    (by decide) (by decide)

/-! ### Claim C6 — a consumed verification token cannot be consumed again -/

/-- C6: if consuming token `tk` succeeds, returning the updated account
and store, then a second consume of the same `tk` against the resulting
store finds nothing — it reports invalid-or-expired and returns the store
unchanged, so no account's verified flag or status moves — provided
document ids are unique and `tk` is held by at most one account, as the
32-byte random tokens are. -/
theorem verification_token_single_use :
    ∀ (db db2 : List UserModel) (tk : String) (now now2 : Nat) (u : UserModel),
      (db.map (·.id)).Nodup →
      (∀ v ∈ db, ∀ w ∈ db, v.verification_token = some tk →
        w.verification_token = some tk → v = w) →
      verify_user_email tk db now = (some u, db2) →
      verify_user_email tk db2 now2 = (none, db2) := by
  intro db db2 tk now now2 u hnd huniq hsucc
  cases hfind : db.find? (fun x => decide (x.verification_token = some tk) &&
      expiryGt x.verification_token_expires_at now) with
  | none => simp [verify_user_email, hfind] at hsucc
  | some w =>
    have hw : w ∈ db := List.mem_of_find?_eq_some hfind
    have hwp := List.find?_some hfind
    have hwtok : w.verification_token = some tk := by
      rw [Bool.and_eq_true] at hwp
      simpa using hwp.1
    simp only [verify_user_email, hfind] at hsucc
    rw [Prod.mk.injEq] at hsucc
    obtain ⟨hfst, hsnd⟩ := hsucc
    subst hsnd
    have hnone : (updateFirst (fun x => decide (x.id = w.id))
        (fun x => { x with
          is_verified := true
          status := .active
          verification_token := none
          verification_token_expires_at := none
          updated_at := now }) db).find?
        (fun x => decide (x.verification_token = some tk) &&
          expiryGt x.verification_token_expires_at now2) = none := by
      rw [List.find?_eq_none]
      intro v hv hp
      rcases mem_updateFirst_id _ w db hw hnd v hv with h | ⟨h1, h2⟩
      · rw [h] at hp
        simp at hp
      · have htokv : v.verification_token = some tk := by
          rw [Bool.and_eq_true] at hp
          simpa using hp.1
        exact h2 (congrArg UserModel.id (huniq v h1 w hw htokv hwtok))
    simp [verify_user_email, hnone]

/-- C6 witness: after consuming `vtok` the store holds the cleared
account, and a second consume of `vtok` returns nothing and leaves the
store untouched. -/
theorem verification_token_single_use_witness :
    verify_user_email "vtok" [demoInactiveUserVerified] 9 =
      (none, [demoInactiveUserVerified]) :=
  verification_token_single_use [demoInactiveUser] [demoInactiveUserVerified]
    "vtok" 5 9 demoInactiveUserVerified (by decide) (by decide) (by decide)

/-! ### Claim C10 — frame of Confirm Password Reset -/

/-- C10: a successful reset rewrites only the password credential, the
reset-token pair and updated_at of the matched account — identity, email,
name, role, status, verified flag, verification-token pair and created_at
are untouched (so an unverified or inactive account completes the reset
with no change to its verification or status fields) — and every other
account is carried over unchanged. -/
theorem reset_password_frame :
    ∀ (db : List UserModel) (tk pw : String) (now : Nat) (u : UserModel),
      (db.map (·.id)).Nodup →
      db.find? (fun x => decide (x.reset_password_token = some tk) &&
        expiryGt x.reset_password_token_expires_at now) = some u →
      ∃ u2 db2, reset_user_password tk pw db now = (some u2, db2) ∧
        u2.hashed_password = hash_password_placeholder pw ∧
        u2.reset_password_token = none ∧
        u2.reset_password_token_expires_at = none ∧
        u2.updated_at = now ∧
        u2.id = u.id ∧ u2.email = u.email ∧ u2.full_name = u.full_name ∧
        u2.role = u.role ∧ u2.status = u.status ∧ u2.is_verified = u.is_verified ∧
        u2.verification_token = u.verification_token ∧
        u2.verification_token_expires_at = u.verification_token_expires_at ∧
        u2.created_at = u.created_at ∧
        (∀ v ∈ db, v.id ≠ u.id → v ∈ db2) ∧
        (∀ v ∈ db2, v = u2 ∨ (v ∈ db ∧ v.id ≠ u.id)) := by
  intro db tk pw now u hnd hfind
  have hu : u ∈ db := List.mem_of_find?_eq_some hfind
  have hre := find?_updateFirst_id
    (fun x => { x with
      hashed_password := hash_password_placeholder pw
      reset_password_token := none
      reset_password_token_expires_at := none
      updated_at := now }) u (fun z => rfl) db hu hnd
  refine ⟨{ u with
      hashed_password := hash_password_placeholder pw
      reset_password_token := none
      reset_password_token_expires_at := none
      updated_at := now },
    updateFirst (fun x => decide (x.id = u.id))
      (fun x => { x with
        hashed_password := hash_password_placeholder pw
        reset_password_token := none
        reset_password_token_expires_at := none
        updated_at := now }) db,
    ?_, rfl, rfl, rfl, rfl, rfl, rfl, rfl, rfl, rfl, rfl, rfl, rfl, rfl, ?_, ?_⟩
  · simp [reset_user_password, hfind, hre]
  · intro v hv hne
    exact mem_updateFirst_of_neg hv (by simp [hne])
  · intro v hv
    rcases mem_updateFirst_id _ u db hu hnd v hv with h | ⟨h1, h2⟩
    · exact Or.inl h
    · exact Or.inr ⟨h1, h2⟩

/-- C10 witness: the unverified inactive teacher completes a reset; its
non-credential fields are untouched and the unrelated account survives
unchanged. -/
theorem reset_password_frame_witness :
    ∃ u2 db2, reset_user_password "rt2" "npw"
      [demoResetUser, demoUnverifiedResetUser] 0 = (some u2, db2) ∧
      u2.hashed_password = hash_password_placeholder "npw" ∧
      u2.reset_password_token = none ∧
      u2.reset_password_token_expires_at = none ∧
      u2.updated_at = 0 ∧
      u2.id = demoUnverifiedResetUser.id ∧
      u2.email = demoUnverifiedResetUser.email ∧
      u2.full_name = demoUnverifiedResetUser.full_name ∧
      u2.role = demoUnverifiedResetUser.role ∧
      u2.status = demoUnverifiedResetUser.status ∧
      u2.is_verified = demoUnverifiedResetUser.is_verified ∧
      u2.verification_token = demoUnverifiedResetUser.verification_token ∧
      u2.verification_token_expires_at =
        demoUnverifiedResetUser.verification_token_expires_at ∧
      u2.created_at = demoUnverifiedResetUser.created_at ∧
      (∀ v ∈ [demoResetUser, demoUnverifiedResetUser],
        v.id ≠ demoUnverifiedResetUser.id → v ∈ db2) ∧
      (∀ v ∈ db2, v = u2 ∨
        (v ∈ [demoResetUser, demoUnverifiedResetUser] ∧
          v.id ≠ demoUnverifiedResetUser.id)) :=
  reset_password_frame [demoResetUser, demoUnverifiedResetUser] "rt2" "npw" 0
    demoUnverifiedResetUser (by decide) (by decide)

end EduAuth
